import Mathlib

/-!
Shallow embedding of the plan-execution core of `grid_preplan_agent`
(`core/models.py`, `controller/complexity_analyzer.py`,
`controller/autogen_controller.py`, `executors/base_executor.py`,
`executors/langgraph_executor.py`), together with theorems settling the
frozen claims about it.

Modelling conventions:
* Python dicts become association lists `List (String × α)` with Python's
  update semantics (`dictGet` finds the first binding, `dictSet` overwrites
  the first binding in place or appends).
* Python floats become `Rat` (none of the verified code paths depends on
  IEEE rounding: the only arithmetic is `min`/`max` and `float(...)`
  coercion).
* Exceptions become `Except String`; the `try/except` boundaries of the
  source are mirrored by `Except` pattern matches at the same places.
* `await` points are irrelevant to the properties (single sequential run),
  so `async` functions become plain functions; the external tool facade
  (`api_registry.call_tool`) is a parameter `env : ToolEnv`.
* Timestamps (`datetime.now().isoformat()`) and wall-clock execution time
  are dropped from history records and results: no claim mentions them.
-/

/-- A Python runtime value, restricted to the shapes that flow through the
executor: numbers (`float`/`int`, both modelled as `Rat`), strings,
string-keyed dicts (the mock RAG tool's result shape), and `None`. -/
inductive Value where
  | num (q : Rat)
  | str (s : String)
  | dict (fields : List (String × Value))
  | pynone
deriving Repr

/-- Structural equality on `Value` (mirrors Python `==` on these shapes). -/
def Value.beq : Value → Value → Bool
  | .num a, .num b => a == b
  | .str a, .str b => a == b
  | .pynone, .pynone => true
  | .dict a, .dict b => beqFields a b
  | _, _ => false
where
  /-- equality of dict field lists -/
  beqFields : List (String × Value) → List (String × Value) → Bool
  | [], [] => true
  | (k, v) :: rest, (k', v') :: rest' => k == k' && beq v v' && beqFields rest rest'
  | _, _ => false

instance : BEq Value := ⟨Value.beq⟩

/-- `Value.beq` is reflexive (needed to turn it into decidable equality). -/
theorem Value.beq_refl : ∀ v : Value, Value.beq v v = true
  | .num a => by simp [Value.beq]
  | .str s => by simp [Value.beq]
  | .pynone => rfl
  | .dict fs => by
      simp only [Value.beq]
      exact beqFields_refl fs
where
  beqFields_refl : ∀ fs : List (String × Value), Value.beq.beqFields fs fs = true
  | [] => rfl
  | (k, v) :: rest => by
      simp only [Value.beq.beqFields, Bool.and_eq_true, beq_self_eq_true, true_and]
      exact ⟨Value.beq_refl v, beqFields_refl rest⟩

/-- `Value.beq` implies propositional equality. -/
theorem Value.eq_of_beq : ∀ {a b : Value}, Value.beq a b = true → a = b
  | .num x, .num y, h => by
      simp only [Value.beq, beq_iff_eq] at h; rw [h]
  | .str x, .str y, h => by
      simp only [Value.beq, beq_iff_eq] at h; rw [h]
  | .pynone, .pynone, _ => rfl
  | .dict fs, .dict gs, h => by
      simp only [Value.beq] at h
      rw [eq_of_beqFields h]
where
  eq_of_beqFields : ∀ {fs gs : List (String × Value)},
      Value.beq.beqFields fs gs = true → fs = gs
  | [], [], _ => rfl
  | (k, v) :: rest, (k', v') :: rest', h => by
      simp only [Value.beq.beqFields, Bool.and_eq_true, beq_iff_eq] at h
      obtain ⟨⟨hk, hv⟩, hrest⟩ := h
      rw [hk, Value.eq_of_beq hv, eq_of_beqFields hrest]

instance : DecidableEq Value := fun a b =>
  if h : Value.beq a b = true then
    .isTrue (Value.eq_of_beq h)
  else
    .isFalse (fun he => h (he ▸ Value.beq_refl a))

/-- Python dict lookup `m.get(k)` / `m[k]` on an insertion-ordered dict
modelled as an association list: the first binding for `k` wins (with the
`dictSet` discipline below keys are unique anyway). -/
def dictGet {α : Type} (m : List (String × α)) (k : String) : Option α :=
  match m with
  | [] => none
  | (k', v) :: rest => if k' = k then some v else dictGet rest k

/-- Python `k in m` on a dict. -/
def dictHas {α : Type} (m : List (String × α)) (k : String) : Bool :=
  (dictGet m k).isSome

/-- Python dict assignment `m[k] = v`: overwrite the existing binding in
place, otherwise append a new one. -/
def dictSet {α : Type} (m : List (String × α)) (k : String) (v : α) :
    List (String × α) :=
  match m with
  | [] => [(k, v)]
  | (k', v') :: rest =>
      if k' = k then (k', v) :: rest else (k', v') :: dictSet rest k v

/-- char-list prefix test (structural replacement for `String.startsWith`,
which does not reduce in the kernel). -/
def listStartsWith : List Char → List Char → Bool
  | _, [] => true
  | [], _ :: _ => false
  | c :: cs, p :: ps => p == c && listStartsWith cs ps

/-- Python `s.startswith(pre)`. -/
def strStartsWith (s pre : String) : Bool :=
  listStartsWith s.data pre.data

/-- Python `s.endswith(post)`. -/
def strEndsWith (s post : String) : Bool :=
  listStartsWith s.data.reverse post.data.reverse

/-- occurrence of `pat` at some position of `text` (structural form of
Python `pat in s`). -/
def charsContains : List Char → List Char → Bool
  | [], pat => pat.isEmpty
  | c :: rest, pat => listStartsWith (c :: rest) pat || charsContains rest pat

/-- Python substring test `pat in s`. -/
def strContains (s pat : String) : Bool :=
  charsContains s.data pat.data

/-- Python `s.lower()` (structural replacement for `String.toLower`). -/
def lowerString (s : String) : String :=
  String.mk (s.data.map Char.toLower)

/-- splitting a char list on a single separator character (structural form
of Python `s.split(sep)` for a one-character separator). -/
def splitOnChar (sep : Char) : List Char → List (List Char)
  | [] => [[]]
  | c :: rest =>
      if c = sep then [] :: splitOnChar sep rest
      else
        match splitOnChar sep rest with
        | [] => [[c]]
        | h :: t => (c :: h) :: t

/-- a whitespace character in the sense of Python `str.strip()`. -/
def isSpaceChar (c : Char) : Bool :=
  c = ' ' || c = '\t' || c = '\n' || c = '\r' || c = '\x0b' || c = '\x0c'

/-- Python `s.strip()` on a char list. -/
def trimChars (cs : List Char) : List Char :=
  ((cs.dropWhile isSpaceChar).reverse.dropWhile isSpaceChar).reverse

/-- decidable equality for `Except` results (used to state evaluator
facts). -/
def exceptDecEq {e a : Type} [DecidableEq e] [DecidableEq a] :
    (x y : Except e a) → Decidable (x = y)
  | .ok x, .ok y =>
      if h : x = y then .isTrue (congrArg Except.ok h)
      else .isFalse (fun he => h (Except.ok.inj he))
  | .error x, .error y =>
      if h : x = y then .isTrue (congrArg Except.error h)
      else .isFalse (fun he => h (Except.error.inj he))
  | .ok _, .error _ => .isFalse (fun he => Except.noConfusion he)
  | .error _, .ok _ => .isFalse (fun he => Except.noConfusion he)

instance {e a : Type} [DecidableEq e] [DecidableEq a] :
    DecidableEq (Except e a) := exceptDecEq

/-- `core/models.py` `StepType`: the closed set of step kinds. -/
inductive StepType where
  | rag
  | tool
  | compute
deriving DecidableEq, Repr

/-- `StepType.value` of the source's `str`-valued enum. -/
def StepType.value : StepType → String
  | .rag => "rag"
  | .tool => "tool"
  | .compute => "compute"

/-- `core/models.py` `Variable` (the fields the analyzer reads). -/
structure Variable where
  name : String
  symbol : String
  unit : String
  formula : Option String := none
deriving DecidableEq, Repr

/-- `core/models.py` `PlanStep`.  `inputs` values are either literal values
or placeholder strings; the kind-specific fields are optional exactly as in
the pydantic model. -/
structure PlanStep where
  id : String
  type : StepType
  description : String
  inputs : List (String × Value) := []
  outputs : List String := []
  query : Option String := none
  tool_name : Option String := none
  formula : Option String := none
deriving DecidableEq, Repr

/-- `core/models.py` `PlanJSON` (the fields the analyzer and executor read).
The source field `variables` is spelled `plan_variables` here because
`variables` is a reserved word in Lean. -/
structure PlanJSON where
  plan_id : String
  title : String
  description : String
  plan_variables : List Variable := []
  steps : List PlanStep
  plan_inputs : List (String × String) := []
  plan_outputs : List String := []
deriving DecidableEq, Repr

/-- Python truthiness of an `Optional[str]` field (`None` and `""` are
falsy). -/
def optStrTruthy : Option String → Bool
  | none => false
  | some s => s ≠ ""

/-! ## Complexity analyzer (`controller/complexity_analyzer.py`) -/

/-- `ComplexityLevel` enum. -/
inductive ComplexityLevel where
  | linear
  | branch
  | multi_agent
deriving DecidableEq, Repr

/-- `ComplexityAnalyzer._count_step_types`, projected to the two counts the
multi-agent rule reads (`rag` and `tool`). -/
def count_rag_steps (steps : List PlanStep) : Nat :=
  (steps.filter (fun s => s.type = StepType.rag)).length

/-- tool-step count of `ComplexityAnalyzer._count_step_types`. -/
def count_tool_steps (steps : List PlanStep) : Nat :=
  (steps.filter (fun s => s.type = StepType.tool)).length

/-- `ComplexityAnalyzer._has_conditional_logic`: a fixed set of (Chinese)
conditional keywords is searched in each step's lowercased description, and
`if`/`case`/`when` are searched in each step's formula (when the formula is
truthy). -/
def has_conditional_logic (steps : List PlanStep) : Bool :=
  steps.any fun step =>
    (["如果", "当", "则", "否则", "满足", "条件", "判断", "选择"].any
        fun kw => strContains (lowerString step.description) kw)
    || (optStrTruthy step.formula
        && (["if", "case", "when"].any fun op =>
              strContains (step.formula.getD "") op))

/-- `ComplexityAnalyzer._analyze_variable_complexity`: the symbols of the
declared variables whose (truthy) formula mentions an aggregate/statistical
function name. -/
def complex_formulas (vars : List Variable) : List String :=
  (vars.filter fun v =>
      optStrTruthy v.formula
      && (["max", "min", "sum", "avg", "sqrt", "pow"].any fun op =>
            strContains (v.formula.getD "") op)).map (fun v => v.symbol)

/-- number of variables with a truthy formula
(`_analyze_variable_complexity`'s `formula_count`). -/
def formula_count (vars : List Variable) : Nat :=
  (vars.filter (fun v => optStrTruthy v.formula)).length

/-- the `level` field computed by `_analyze_variable_complexity` (note that
the source returns `{"level": "simple", ...}` outright for an empty variable
list, which coincides with the general formula). -/
def variable_complexity_level (vars : List Variable) : String :=
  if (complex_formulas vars).length > 2 then "complex"
  else if formula_count vars > 0 then "moderate"
  else "simple"

/-- `ComplexityAnalyzer._requires_domain_expertise`: the plan's combined
text (title, description and all step descriptions, lowercased) is searched
against five domain keyword buckets; true iff at least three buckets hit. -/
def requires_domain_expertise (plan : PlanJSON) : Bool :=
  let plan_text :=
    lowerString
      (plan.steps.foldl (fun acc step => acc ++ " " ++ step.description)
        (plan.title ++ " " ++ plan.description))
  let buckets : List (List String) :=
    [["电压", "电流", "功率", "阻抗", "电气"],
     ["机械", "振动", "转速", "扭矩"],
     ["温度", "压力", "热量", "冷却"],
     ["控制", "调节", "自动", "保护"],
     ["通信", "信号", "数据", "网络"]]
  ((buckets.filter fun kws => kws.any fun kw => strContains plan_text kw).length) ≥ 3

/-- `ComplexityAnalyzer.analyze`, reduced to the returned level.  The three
rules (`_check_linear_pattern`, `_check_branch_pattern`,
`_check_multi_agent_pattern`) are tried in that order; the first whose guard
holds wins, and the fallback is `linear`. -/
def analyze (plan : PlanJSON) : ComplexityLevel :=
  let step_count := plan.steps.length
  let has_conditions := has_conditional_logic plan.steps
  let var_level := variable_complexity_level plan.plan_variables
  if step_count ≤ 15 && !has_conditions
      && (var_level == "simple" || var_level == "moderate") then
    ComplexityLevel.linear
  else if has_conditions || var_level == "complex" || step_count > 15 then
    ComplexityLevel.branch
  else if step_count > 20
      || (count_rag_steps plan.steps > 5 && count_tool_steps plan.steps > 5)
      || requires_domain_expertise plan then
    ComplexityLevel.multi_agent
  else
    ComplexityLevel.linear

/-! ## Formula evaluator (`LangGraphExecutor.evaluate_formula`) -/

/-- decimal digit-string parser (helper for Python `float(...)` on strings):
`none` on the empty string or any non-digit character. -/
def parseDigits : List Char → Option Nat
  | [] => none
  | cs => go cs 0
where
  go : List Char → Nat → Option Nat
  | [], acc => some acc
  | c :: rest, acc =>
      if c.isDigit then go rest (acc * 10 + (c.toNat - 48)) else none

/-- unsigned decimal numeral, optionally with a fractional part
(`"12"`, `"12.5"`, `".5"`, `"5."`). -/
def parseUnsignedDecimal (cs : List Char) : Option Rat :=
  match splitOnChar '.' cs with
  | [intp] => (parseDigits intp).map (fun n => (n : Rat))
  | [intp, fracp] =>
      if intp.isEmpty && fracp.isEmpty then none
      else
        let ip := if intp.isEmpty then some 0 else parseDigits intp
        let fp := if fracp.isEmpty then some 0 else parseDigits fracp
        match ip, fp with
        | some i, some f =>
            some ((i : Rat) + (f : Rat) / ((10 : Rat) ^ fracp.length))
        | _, _ => none
  | _ => none

/-- Python `float(s)` on a string, restricted to plain decimal numerals with
an optional leading sign (the executor's values never use exponent/inf/nan
forms); anything else raises, modelled as `none`. -/
def pyFloatOfString (s : String) : Option Rat :=
  match trimChars s.data with
  | '-' :: rest => (parseUnsignedDecimal rest).map Neg.neg
  | '+' :: rest => parseUnsignedDecimal rest
  | t => parseUnsignedDecimal t

/-- Python `float(v)` on an executor value: numbers pass through, numeric
strings are parsed, anything else raises `ValueError`/`TypeError`
(modelled as `Except.error` with the corresponding message shape). -/
def pyFloat : Value → Except String Rat
  | .num q => .ok q
  | .str s =>
      match pyFloatOfString s with
      | some q => .ok q
      | none => .error ("could not convert string to float: " ++ s)
  | .dict _ => .error "float() argument must be a string or a real number, not dict"
  | .pynone => .error "float() argument must be a string or a real number, not NoneType"

/-- the argument-collection loop shared by the `min(...)` and `max(...)`
branches of `evaluate_formula`: each comma-separated token is looked up in
`inputs` and coerced with `float(...)`; a token absent from `inputs` raises
`ValueError("公式中的变量未找到: ...")` (numeric literals are NOT recognised —
they too are looked up as names). -/
def evalAggArgs (inputs : List (String × Value)) :
    List String → Except String (List Rat)
  | [] => .ok []
  | name :: rest =>
      match dictGet inputs name with
      | some v =>
          match pyFloat v with
          | .ok q =>
              match evalAggArgs inputs rest with
              | .ok qs => .ok (q :: qs)
              | .error e => .error e
          | .error e => .error e
      | none => .error ("公式中的变量未找到: " ++ name)

/-- Python `min(values)` (the loop guarantees a nonempty list, but the empty
case is kept as the `ValueError` Python would raise). -/
def pyMin : List Rat → Except String Rat
  | [] => .error "min() iterable argument is empty"
  | q :: qs => .ok (qs.foldl min q)

/-- Python `max(values)`. -/
def pyMax : List Rat → Except String Rat
  | [] => .error "max() iterable argument is empty"
  | q :: qs => .ok (qs.foldl max q)

/-- `LangGraphExecutor.evaluate_formula`: only `min(...)`/`max(...)` forms
are supported; the text between the parentheses is split on commas, each
token stripped and resolved through `inputs`; any other formula shape
raises `ValueError("不支持的公式格式: ...")`. -/
def evaluate_formula (formula : String) (inputs : List (String × Value)) :
    Except String Rat :=
  if strStartsWith formula "min(" && strEndsWith formula ")" then
    let vars_str := (formula.data.drop 4).dropLast
    let var_names :=
      (splitOnChar ',' vars_str).map (fun cs => String.mk (trimChars cs))
    match evalAggArgs inputs var_names with
    | .ok values => pyMin values
    | .error e => .error e
  else if strStartsWith formula "max(" && strEndsWith formula ")" then
    let vars_str := (formula.data.drop 4).dropLast
    let var_names :=
      (splitOnChar ',' vars_str).map (fun cs => String.mk (trimChars cs))
    match evalAggArgs inputs var_names with
    | .ok values => pyMax values
    | .error e => .error e
  else
    .error ("不支持的公式格式: " ++ formula)

/-! ## Execution engine (`executors/langgraph_executor.py`, `base_executor.py`) -/

/-- Python `str(value)` as used by placeholder substitution.  Numbers follow
the float rendering of the source's tool values (`str(3200.0) = "3200.0"`;
non-integral rationals are rendered as fractions — no claim's execution
reaches that case); the rendering of dict values is abstracted to a fixed
tag, since no claim substitutes a dict-valued variable into text. -/
def pyStr : Value → String
  | .num q => if q.den = 1 then toString q.num ++ ".0"
              else toString q.num ++ "/" ++ toString q.den
  | .str s => s
  | .dict _ => "<dict>"
  | .pynone => "None"

/-- `f"{e}"` on an `Optional[str]` (an absent message prints as `None`). -/
def optMsgStr (m : Option String) : String := m.getD "None"

/-- the scanner core of `LangGraphExecutor.substitute_variables`, mirroring
`re.sub(r'\x7b([^\x7d]+)\x7d', replace_var, text)`: `acc = some a` means we
are inside a candidate `\x7b...` whose body (reversed) is `a`; a closed
nonempty body is looked up in `vars` and replaced by `str(value)` when
bound, else left verbatim (the source logs a warning and keeps the
placeholder). -/
def substAux (vars : List (String × Value)) (acc : Option (List Char)) :
    List Char → List Char
  | [] =>
      match acc with
      | none => []
      | some a => '\x7b' :: a.reverse
  | c :: rest =>
      match acc with
      | none =>
          if c = '\x7b' then substAux vars (some []) rest
          else c :: substAux vars none rest
      | some a =>
          if c = '\x7d' then
            if a.isEmpty then '\x7b' :: '\x7d' :: substAux vars none rest
            else
              let name := String.mk a.reverse
              match dictGet vars name with
              | some v => (pyStr v).data ++ substAux vars none rest
              | none => ('\x7b' :: a.reverse) ++ '\x7d' :: substAux vars none rest
          else substAux vars (some (c :: a)) rest

/-- `LangGraphExecutor.substitute_variables`. -/
def substitute_variables (text : String) (vars : List (String × Value)) :
    String :=
  String.mk (substAux vars none text.data)

/-- result of one external tool invocation (`core/models.py` `ToolResult`,
restricted to the fields the executor reads). -/
structure ToolResult where
  success : Bool
  result : Value := .pynone
  error_message : Option String := none
deriving DecidableEq, Repr

/-- the external tool facade (`api_registry.call_tool`): name and keyword
arguments in, `ToolResult` out.  `call_tool` raising `ValueError` on an
unknown tool is modelled by an environment that reports `success = false`
(both paths end in the same `except` of the calling step handler). -/
def ToolEnv : Type := String → List (String × Value) → ToolResult

/-- one entry of the `step_results` log written by `create_step_node`
(timestamps dropped; a failure entry carries `error` instead of
`outputs`). -/
structure StepResult where
  step_id : String
  step_type : String
  description : String
  success : Bool
  outputs : List (String × Value) := []
  error : Option String := none
deriving DecidableEq, Repr

/-- the LangGraph `GraphState` dict (`execution_id`/`plan_id`/`scenario` are
carried but never read by any node, and are dropped here).  `last_step_id`
models the key read by `state.get("last_step_id")` in `create_step_node`:
the initial state built in `execute` does not contain it and no code path
ever writes it, so it is `none` throughout. -/
structure GraphState where
  current_step : String
  vars : List (String × Value)
  step_results : List StepResult
  error_message : Option String
  status : String
  last_step_id : Option String := none
deriving DecidableEq, Repr

/-- `LangGraphExecutor.execute_rag_step` (the RAG facade is reached through
the same tool environment under the fixed name `"mock_rag_query"`).  Errors
raised inside the handler's `try` come back wrapped as
`"RAG步骤执行失败: ..."`. -/
def execute_rag_step (env : ToolEnv) (step : PlanStep) (state : GraphState) :
    Except String (List (String × Value)) :=
  if !optStrTruthy step.query then .error "RAG步骤缺少query字段"
  else
    let query := substitute_variables (step.query.getD "") state.vars
    let rag_result := env "mock_rag_query" [("query", .str query)]
    if !rag_result.success then
      .error ("RAG步骤执行失败: RAG查询失败: " ++ optMsgStr rag_result.error_message)
    else
      match step.outputs with
      | [] => .ok []
      | first :: _ =>
          match rag_result.result with
          | .dict d =>
              let firstVal := (dictGet d "answer").getD (.str (pyStr rag_result.result))
              .ok (step.outputs.enum.foldl
                (fun acc iv =>
                  dictSet acc iv.2 (if iv.1 = 0 then firstVal else rag_result.result))
                [])
          | other => .ok [(first, other)]

/-- the input-resolution loop of `execute_tool_step`: string values get
placeholder substitution, other values pass through. -/
def resolve_tool_inputs (inputs : List (String × Value))
    (vars : List (String × Value)) : List (String × Value) :=
  inputs.map fun kv =>
    match kv.2 with
    | .str s => (kv.1, .str (substitute_variables s vars))
    | v => (kv.1, v)

/-- `LangGraphExecutor.execute_tool_step`: resolve the inputs, invoke the
tool, raise on a reported failure (wrapped by the handler's `except` as
`"Tool步骤执行失败: 工具调用失败: ..."`), on success bind the first declared
output to the tool's result value. -/
def execute_tool_step (env : ToolEnv) (step : PlanStep) (state : GraphState) :
    Except String (List (String × Value)) :=
  if !optStrTruthy step.tool_name then .error "Tool步骤缺少tool_name字段"
  else
    let tool_inputs := resolve_tool_inputs step.inputs state.vars
    let tool_result := env (step.tool_name.getD "") tool_inputs
    if !tool_result.success then
      .error ("Tool步骤执行失败: 工具调用失败: " ++ optMsgStr tool_result.error_message)
    else
      match step.outputs with
      | [] => .ok []
      | first :: _ => .ok [(first, tool_result.result)]

/-- the input-resolution loop of `execute_compute_step`: a string value of
the exact shape `"\x7bsymbol\x7d"` is looked up in the variable table (a miss
raises `"未找到变量: ..."`), every other value passes through. -/
def resolve_compute_inputs (inputs : List (String × Value))
    (vars : List (String × Value)) : Except String (List (String × Value)) :=
  match inputs with
  | [] => .ok []
  | (k, v) :: rest =>
      let resolved : Except String Value :=
        match v with
        | .str s =>
            if strStartsWith s "\x7b" && strEndsWith s "\x7d" then
              let var_name := String.mk (s.data.drop 1).dropLast
              match dictGet vars var_name with
              | some val => .ok val
              | none => .error ("未找到变量: " ++ var_name)
            else .ok v
        | other => .ok other
      match resolved with
      | .ok val =>
          match resolve_compute_inputs rest vars with
          | .ok tail => .ok ((k, val) :: tail)
          | .error e => .error e
      | .error e => .error e

/-- `LangGraphExecutor.execute_compute_step`: resolve the inputs, run the
formula evaluator, bind the first declared output to the numeric result;
everything raised inside the handler's `try` comes back wrapped as
`"Compute步骤执行失败: ..."`. -/
def execute_compute_step (step : PlanStep) (state : GraphState) :
    Except String (List (String × Value)) :=
  if !optStrTruthy step.formula then .error "Compute步骤缺少formula字段"
  else
    match resolve_compute_inputs step.inputs state.vars with
    | .error e => .error ("Compute步骤执行失败: " ++ e)
    | .ok compute_inputs =>
        match evaluate_formula (step.formula.getD "") compute_inputs with
        | .error e => .error ("Compute步骤执行失败: " ++ e)
        | .ok result =>
            match step.outputs with
            | [] => .ok []
            | first :: _ => .ok [(first, .num result)]

/-- the kind dispatch inside the node function produced by
`LangGraphExecutor.create_step_node` (the unknown-kind `else` branch of the
source is unreachable for the closed `StepType` enum). -/
def dispatch_step (env : ToolEnv) (step : PlanStep) (state : GraphState) :
    Except String (List (String × Value)) :=
  match step.type with
  | .rag => execute_rag_step env step state
  | .tool => execute_tool_step env step state
  | .compute => execute_compute_step step state

/-- the output-binding loop of `create_step_node`: for each declared output
symbol that the handler produced, write it into the variable table. -/
def step_node_bind_vars (result : List (String × Value)) (outs : List String)
    (vs : List (String × Value)) : List (String × Value) :=
  outs.foldl
    (fun vs out =>
      match dictGet result out with
      | some v => dictSet vs out v
      | none => vs)
    vs

/-- the part of the node function after the kind dispatch (the source
checks `step.id == state.get("last_step_id")` after recording the step, but
the node never touches that key, so the check is hoisted over the record
update here). -/
def apply_step_outcome (step : PlanStep) (state : GraphState) :
    Except String (List (String × Value)) → GraphState
  | .ok result =>
      if state.last_step_id = some step.id then
        { state with
          vars := step_node_bind_vars result step.outputs state.vars,
          step_results := state.step_results ++
            [{ step_id := step.id, step_type := step.type.value,
               description := step.description, success := true,
               outputs := result, error := none }],
          status := "completed" }
      else
        { state with
          vars := step_node_bind_vars result step.outputs state.vars,
          step_results := state.step_results ++
            [{ step_id := step.id, step_type := step.type.value,
               description := step.description, success := true,
               outputs := result, error := none }] }
  | .error e =>
      { state with
        step_results := state.step_results ++
          [{ step_id := step.id, step_type := step.type.value,
             description := step.description, success := false,
             outputs := [], error := some e }],
        error_message := some e,
        status := "failed" }

/-- the full node function: set `current_step`, dispatch on the step kind,
then bind outputs / record history / update status as above. -/
def step_node (env : ToolEnv) (step : PlanStep) (state0 : GraphState) :
    GraphState :=
  apply_step_outcome step { state0 with current_step := step.id }
    (dispatch_step env step { state0 with current_step := step.id })

/-- running the compiled graph built by `build_graph`: the nodes form one
linear chain (entry point, an edge between consecutive steps, last step to
END), so LangGraph invokes every node once, in declared order, each on the
state returned by its predecessor — a node that has recorded a failure does
not stop the chain, because every edge is unconditional. -/
def runSteps (env : ToolEnv) (steps : List PlanStep) (st : GraphState) :
    GraphState :=
  steps.foldl (fun s stp => step_node env stp s) st

/-- the initial `GraphState` built in `LangGraphExecutor.execute` (variables
seeded with a copy of the caller's inputs, status `"running"`, and no
`last_step_id` key). -/
def initGraphState (inputs : List (String × Value)) : GraphState :=
  { current_step := "", vars := inputs, step_results := [],
    error_message := none, status := "running", last_step_id := none }

/-- `core/models.py` `ExecutionResult`, restricted to the fields the claims
mention (`execution_id` and `execution_time` dropped). -/
structure ExecutionResult where
  plan_id : String
  success : Bool
  scenario : String
  final_outputs : List (String × Value)
  vars : List (String × Value)
  step_results : List StepResult
  error_message : Option String := none
  failed_step : Option String := none
deriving DecidableEq, Repr

/-- `BaseExecutor.validate_inputs`: the first declared plan input absent
from the caller's map raises
`ValueError("缺少必需的输入参数: name (description)")`; `some message`
models that exception. -/
def validate_inputs (plan : PlanJSON) (inputs : List (String × Value)) :
    Option String :=
  (plan.plan_inputs.find? (fun kv => !dictHas inputs kv.1)).map
    (fun kv => "缺少必需的输入参数: " ++ kv.1 ++ " (" ++ kv.2 ++ ")")

/-- `LangGraphExecutor.execute`.  The whole body sits in one
`try/except Exception`: a validation failure is caught there and turned
into a failed result over a fresh state (empty history, variables =
a copy of the inputs).  Otherwise the graph runs every step node in order,
the final outputs are the plan outputs present in the final variable
table, `success` is `status == "completed"`, and `create_execution_result`
is called without a `failed_step` argument, so `failed_step` is always
`None`. -/
def execute (env : ToolEnv) (plan : PlanJSON) (scenario : String)
    (inputs : List (String × Value)) : ExecutionResult :=
  match validate_inputs plan inputs with
  | some msg =>
      { plan_id := plan.plan_id, success := false, scenario := scenario,
        final_outputs := [], vars := inputs, step_results := [],
        error_message := some msg, failed_step := none }
  | none =>
      let final := runSteps env plan.steps (initGraphState inputs)
      let final_outputs := plan.plan_outputs.foldl
        (fun fo ov =>
          match dictGet final.vars ov with
          | some v => dictSet fo ov v
          | none => fo)
        []
      { plan_id := plan.plan_id,
        success := final.status == "completed",
        scenario := scenario,
        final_outputs := final_outputs,
        vars := final.vars,
        step_results := final.step_results,
        error_message := final.error_message,
        failed_step := none }

/-! ## Strategy router (`AutoGenController.route_to_executor`) -/

/-- the two executor instances the controller can return. -/
inductive ExecutorChoice where
  | langgraph
  | smolagents
deriving DecidableEq, Repr

/-- `AutoGenController.route_to_executor`: a truthy explicit name equal
(case-insensitively) to a registered executor wins; any other explicit name
falls through silently to the complexity-based defaults (Linear and Branch
→ LangGraph, MultiAgent → Smolagents).  No error is raised on an unknown
name. -/
def route_to_executor (complexity : ComplexityLevel)
    (preferred_executor : Option String) : ExecutorChoice :=
  let explicitChoice : Option ExecutorChoice :=
    match preferred_executor with
    | some p =>
        if p ≠ "" then
          if lowerString p = "langgraph" then some ExecutorChoice.langgraph
          else if lowerString p = "smolagents" then some ExecutorChoice.smolagents
          else none
        else none
    | none => none
  match explicitChoice with
  | some e => e
  | none =>
      match complexity with
      | .linear => ExecutorChoice.langgraph
      | .branch => ExecutorChoice.langgraph
      | .multi_agent => ExecutorChoice.smolagents

/-! ## Invariants of the step chain -/

/-- updating key `k'` leaves every other key's first binding intact and
makes `k'` resolve to the new value. -/
theorem dictGet_dictSet {α : Type} (m : List (String × α)) (k' k : String)
    (v : α) :
    dictGet (dictSet m k' v) k = if k' = k then some v else dictGet m k := by
  induction m with
  | nil => simp [dictSet, dictGet]
  | cons kv rest ih =>
      obtain ⟨k0, v0⟩ := kv
      simp only [dictSet]
      by_cases h0 : k0 = k'
      · subst h0
        rw [if_pos rfl]
        by_cases h1 : k0 = k <;> simp [dictGet, h1]
      · rw [if_neg h0]
        by_cases h1 : k0 = k
        · have h2 : ¬k' = k := fun he => h0 (h1.trans he.symm)
          simp [dictGet, h1, h2]
        · simp [dictGet, h1, ih]

/-- binding a step's outputs never removes a key from the variable table. -/
theorem bindVars_isSome (result : List (String × Value))
    (outs : List String) (vs : List (String × Value)) (k : String)
    (h : (dictGet vs k).isSome) :
    (dictGet (step_node_bind_vars result outs vs) k).isSome := by
  induction outs generalizing vs with
  | nil => exact h
  | cons o rest ih =>
      simp only [step_node_bind_vars, List.foldl] at *
      cases dictGet result o with
      | none => exact ih vs h
      | some v =>
          refine ih _ ?_
          rw [dictGet_dictSet]
          by_cases ho : o = k
          · simp [ho]
          · simp [ho, h]

/-- the post-dispatch update never writes the `last_step_id` key (the
source never writes it either). -/
theorem apply_outcome_last_step_id (step : PlanStep) (state : GraphState)
    (d : Except String (List (String × Value))) :
    (apply_step_outcome step state d).last_step_id = state.last_step_id := by
  cases d with
  | ok r =>
      simp only [apply_step_outcome]
      split <;> rfl
  | error e => rfl

/-- no node writes the `last_step_id` key. -/
theorem step_node_last_step_id (env : ToolEnv) (step : PlanStep)
    (st : GraphState) :
    (step_node env step st).last_step_id = st.last_step_id := by
  unfold step_node
  exact apply_outcome_last_step_id step _ _

/-- the post-dispatch update appends exactly one history record. -/
theorem apply_outcome_records_len (step : PlanStep) (state : GraphState)
    (d : Except String (List (String × Value))) :
    (apply_step_outcome step state d).step_results.length =
      state.step_results.length + 1 := by
  cases d with
  | ok r =>
      simp only [apply_step_outcome]
      split <;> simp
  | error e => simp [apply_step_outcome]

/-- one node invocation appends exactly one history record. -/
theorem step_node_records_len (env : ToolEnv) (step : PlanStep)
    (st : GraphState) :
    (step_node env step st).step_results.length =
      st.step_results.length + 1 := by
  unfold step_node
  exact apply_outcome_records_len step _ _

/-- the post-dispatch update either keeps the status (when `last_step_id`
is unset, the `completed` branch cannot fire) or sets it to `"failed"`. -/
theorem apply_outcome_status (step : PlanStep) (state : GraphState)
    (d : Except String (List (String × Value)))
    (h : state.last_step_id = none) :
    (apply_step_outcome step state d).status = state.status ∨
      (apply_step_outcome step state d).status = "failed" := by
  cases d with
  | ok r =>
      left
      simp only [apply_step_outcome]
      rw [if_neg (by simp [h])]
  | error e => right; rfl

/-- a node either keeps the status or sets it to `"failed"`, provided
`last_step_id` is unset. -/
theorem step_node_status (env : ToolEnv) (step : PlanStep) (st : GraphState)
    (h : st.last_step_id = none) :
    (step_node env step st).status = st.status ∨
      (step_node env step st).status = "failed" := by
  unfold step_node
  exact apply_outcome_status step _ _ h

/-- the post-dispatch update never removes a key from the variable table. -/
theorem apply_outcome_vars_isSome (step : PlanStep) (state : GraphState)
    (d : Except String (List (String × Value))) (k : String)
    (h : (dictGet state.vars k).isSome) :
    (dictGet (apply_step_outcome step state d).vars k).isSome := by
  cases d with
  | ok r =>
      simp only [apply_step_outcome]
      split <;> exact bindVars_isSome r step.outputs state.vars k h
  | error e => exact h

/-- a node never removes a key from the variable table. -/
theorem step_node_vars_isSome (env : ToolEnv) (step : PlanStep)
    (st : GraphState) (k : String) (h : (dictGet st.vars k).isSome) :
    (dictGet (step_node env step st).vars k).isSome := by
  unfold step_node
  exact apply_outcome_vars_isSome step _ _ k h

/-- the post-dispatch update keeps `error_message` set once it is set. -/
theorem apply_outcome_errmsg_isSome (step : PlanStep) (state : GraphState)
    (d : Except String (List (String × Value)))
    (h : state.error_message.isSome) :
    (apply_step_outcome step state d).error_message.isSome := by
  cases d with
  | ok r =>
      simp only [apply_step_outcome]
      split <;> exact h
  | error e => rfl

/-- a node keeps `error_message` set once it is set. -/
theorem step_node_errmsg_isSome (env : ToolEnv) (step : PlanStep)
    (st : GraphState) (h : st.error_message.isSome) :
    (step_node env step st).error_message.isSome := by
  unfold step_node
  exact apply_outcome_errmsg_isSome step _ _ h

/-- history records are append-only through the post-dispatch update. -/
theorem apply_outcome_records_mem (step : PlanStep) (state : GraphState)
    (d : Except String (List (String × Value))) (r : StepResult)
    (h : r ∈ state.step_results) :
    r ∈ (apply_step_outcome step state d).step_results := by
  cases d with
  | ok res =>
      simp only [apply_step_outcome]
      split <;> exact List.mem_append_left _ h
  | error e => exact List.mem_append_left _ h

/-- any `error_message` carried by the state is the error of some recorded
failed step: the invariant that ties the final message to the failing
step's history record. -/
def ErrTraced (st : GraphState) : Prop :=
  ∀ m, st.error_message = some m →
    ∃ r ∈ st.step_results, r.success = false ∧ r.error = some m

/-- the post-dispatch update preserves `ErrTraced`. -/
theorem apply_outcome_errTraced (step : PlanStep) (state : GraphState)
    (d : Except String (List (String × Value))) (h : ErrTraced state) :
    ErrTraced (apply_step_outcome step state d) := by
  cases d with
  | ok res =>
      intro m hm
      have hm' : state.error_message = some m := by
        simp only [apply_step_outcome] at hm
        split at hm <;> exact hm
      obtain ⟨r, hr, hfail, herr⟩ := h m hm'
      refine ⟨r, ?_, hfail, herr⟩
      exact apply_outcome_records_mem step state (.ok res) r hr
  | error e =>
      intro m hm
      have he : e = m := by
        simp only [apply_step_outcome] at hm
        exact Option.some_injective _ hm
      refine ⟨{ step_id := step.id, step_type := step.type.value,
                description := step.description, success := false,
                outputs := [], error := some e }, ?_, rfl, by rw [he]⟩
      exact List.mem_append_right _ (List.mem_singleton.mpr rfl)

/-- a node preserves `ErrTraced`. -/
theorem step_node_errTraced (env : ToolEnv) (step : PlanStep)
    (st : GraphState) (h : ErrTraced st) : ErrTraced (step_node env step st) := by
  unfold step_node
  refine apply_outcome_errTraced step _ _ ?_
  exact h

/-- running a concatenation of step lists is running them in sequence. -/
theorem runSteps_append (env : ToolEnv) (a b : List PlanStep)
    (st : GraphState) :
    runSteps env (a ++ b) st = runSteps env b (runSteps env a st) := by
  simp [runSteps, List.foldl_append]

/-- the whole chain never writes `last_step_id`. -/
theorem runSteps_last_step_id (env : ToolEnv) (steps : List PlanStep)
    (st : GraphState) :
    (runSteps env steps st).last_step_id = st.last_step_id := by
  induction steps generalizing st with
  | nil => rfl
  | cons s rest ih =>
      show (runSteps env rest (step_node env s st)).last_step_id = _
      rw [ih, step_node_last_step_id]

/-- every step of the chain appends exactly one history record. -/
theorem runSteps_records_len (env : ToolEnv) (steps : List PlanStep)
    (st : GraphState) :
    (runSteps env steps st).step_results.length =
      st.step_results.length + steps.length := by
  induction steps generalizing st with
  | nil => rfl
  | cons s rest ih =>
      show (runSteps env rest (step_node env s st)).step_results.length = _
      rw [ih, step_node_records_len]
      simp [List.length_cons]
      omega

/-- once `status = "failed"`, the rest of the chain keeps it `"failed"`
(but, as `runSteps_records_len` shows, the remaining steps still run). -/
theorem runSteps_failed_sticky (env : ToolEnv) (steps : List PlanStep)
    (st : GraphState) (hlast : st.last_step_id = none)
    (hf : st.status = "failed") :
    (runSteps env steps st).status = "failed" := by
  induction steps generalizing st with
  | nil => exact hf
  | cons s rest ih =>
      show (runSteps env rest (step_node env s st)).status = _
      refine ih (step_node env s st) ?_ ?_
      · rw [step_node_last_step_id, hlast]
      · rcases step_node_status env s st hlast with h | h
        · rw [h, hf]
        · exact h

/-- the chain can never reach `status = "completed"` when `last_step_id`
is unset and the status is not already `"completed"`. -/
theorem runSteps_not_completed (env : ToolEnv) (steps : List PlanStep)
    (st : GraphState) (hlast : st.last_step_id = none)
    (hs : st.status ≠ "completed") :
    (runSteps env steps st).status ≠ "completed" := by
  induction steps generalizing st with
  | nil => exact hs
  | cons s rest ih =>
      show (runSteps env rest (step_node env s st)).status ≠ _
      refine ih (step_node env s st) ?_ ?_
      · rw [step_node_last_step_id, hlast]
      · rcases step_node_status env s st hlast with h | h
        · rw [h]; exact hs
        · rw [h]; intro hc; exact absurd hc (by decide)

/-- the chain never removes a key from the variable table. -/
theorem runSteps_vars_isSome (env : ToolEnv) (steps : List PlanStep)
    (st : GraphState) (k : String) (h : (dictGet st.vars k).isSome) :
    (dictGet (runSteps env steps st).vars k).isSome := by
  induction steps generalizing st with
  | nil => exact h
  | cons s rest ih =>
      exact ih (step_node env s st) (step_node_vars_isSome env s st k h)

/-- the chain keeps `error_message` set once it is set. -/
theorem runSteps_errmsg_isSome (env : ToolEnv) (steps : List PlanStep)
    (st : GraphState) (h : st.error_message.isSome) :
    (runSteps env steps st).error_message.isSome := by
  induction steps generalizing st with
  | nil => exact h
  | cons s rest ih =>
      exact ih (step_node env s st) (step_node_errmsg_isSome env s st h)

/-- the chain preserves `ErrTraced`. -/
theorem runSteps_errTraced (env : ToolEnv) (steps : List PlanStep)
    (st : GraphState) (h : ErrTraced st) : ErrTraced (runSteps env steps st) := by
  induction steps generalizing st with
  | nil => exact h
  | cons s rest ih =>
      exact ih (step_node env s st) (step_node_errTraced env s st h)

/-- `execute` on a validation failure: the `except` branch builds a failed
result over a fresh state. -/
theorem execute_of_invalid (env : ToolEnv) (plan : PlanJSON)
    (scenario : String) (inputs : List (String × Value)) (msg : String)
    (hvalid : validate_inputs plan inputs = some msg) :
    execute env plan scenario inputs =
      { plan_id := plan.plan_id, success := false, scenario := scenario,
        final_outputs := [], vars := inputs, step_results := [],
        error_message := some msg, failed_step := none } := by
  unfold execute
  rw [hvalid]

/-- `execute` once validation passes: run the chain and package the final
state. -/
theorem execute_of_valid (env : ToolEnv) (plan : PlanJSON)
    (scenario : String) (inputs : List (String × Value))
    (hvalid : validate_inputs plan inputs = none) :
    execute env plan scenario inputs =
      { plan_id := plan.plan_id,
        success :=
          (runSteps env plan.steps (initGraphState inputs)).status == "completed",
        scenario := scenario,
        final_outputs := plan.plan_outputs.foldl
          (fun fo ov =>
            match dictGet (runSteps env plan.steps (initGraphState inputs)).vars ov with
            | some v => dictSet fo ov v
            | none => fo)
          [],
        vars := (runSteps env plan.steps (initGraphState inputs)).vars,
        step_results := (runSteps env plan.steps (initGraphState inputs)).step_results,
        error_message := (runSteps env plan.steps (initGraphState inputs)).error_message,
        failed_step := none } := by
  unfold execute
  rw [hvalid]

/-- a tool step whose external tool reports `success = false` makes the
kind dispatch raise (with the wrapped tool-failure message). -/
theorem dispatch_step_tool_failure (env : ToolEnv) (step : PlanStep)
    (state : GraphState) (tn : String)
    (htype : step.type = StepType.tool)
    (hname : step.tool_name = some tn) (hne : tn ≠ "")
    (hfail : (env tn (resolve_tool_inputs step.inputs state.vars)).success = false) :
    dispatch_step env step state =
      .error ("Tool步骤执行失败: 工具调用失败: " ++
        optMsgStr (env tn (resolve_tool_inputs step.inputs state.vars)).error_message) := by
  unfold dispatch_step
  rw [htype]
  unfold execute_tool_step
  rw [hname]
  simp [optStrTruthy, hne, hfail]

/-- a node whose dispatch raised records the failure: status `"failed"`,
`error_message` set to the raised message. -/
theorem step_node_of_dispatch_error (env : ToolEnv) (step : PlanStep)
    (st : GraphState) (e : String)
    (hd : dispatch_step env step { st with current_step := step.id } = .error e) :
    (step_node env step st).status = "failed" ∧
      (step_node env step st).error_message = some e ∧
      (step_node env step st).vars = st.vars := by
  unfold step_node
  rw [hd]
  exact ⟨rfl, rfl, rfl⟩

/-! ## Concrete fixtures used by witnesses and counterexamples -/

/-- an environment in which every tool call succeeds with the value 2800
(the shape of the repo's mocked `query_send_limit`/`query_recv_limit`). -/
def envOK : ToolEnv := fun _name _args => { success := true, result := .num 2800 }

/-- the 3-step plan of the repo's own `sample_plan` test fixture
(`tests/test_executors.py`): two tool queries, then a `min` compute. -/
def planRunsClean : PlanJSON :=
  { plan_id := "test_dc_limit", title := "测试直流限额预案",
    description := "用于测试的直流限额计算预案",
    steps := [
      { id := "step1", type := .tool, description := "query send limit",
        tool_name := some "query_send_limit",
        inputs := [("line", .str "{line}")], outputs := ["P_max_send"] },
      { id := "step2", type := .tool, description := "query recv limit",
        tool_name := some "query_recv_limit",
        inputs := [("line", .str "{line}")], outputs := ["P_max_receive"] },
      { id := "step3", type := .compute, description := "compute net limit",
        formula := some "min(P_max_send, P_max_receive)",
        inputs := [("P_max_send", .str "{P_max_send}"),
                   ("P_max_receive", .str "{P_max_receive}")],
        outputs := ["P_max_net"] }],
    plan_inputs := [("line", "直流线路名称")],
    plan_outputs := ["P_max_net"] }

/-- an environment in which the tool named `"bad"` reports failure and
every other tool succeeds with the value 7. -/
def envToolFail : ToolEnv := fun name _args =>
  if name = "bad" then { success := false, result := .pynone, error_message := some "boom" }
  else { success := true, result := .num 7 }

/-- first step of the two-step fixtures: a succeeding tool call binding `x`. -/
def stepGoodX : PlanStep :=
  { id := "s1", type := .tool, description := "bind x",
    tool_name := some "good", outputs := ["x"] }

/-- a failing tool call (the external tool reports `success = false`). -/
def stepBadY : PlanStep :=
  { id := "s2", type := .tool, description := "fails",
    tool_name := some "bad", outputs := ["y"] }

/-- a succeeding tool call binding `y`. -/
def stepGoodY : PlanStep :=
  { id := "s2", type := .tool, description := "bind y",
    tool_name := some "good", outputs := ["y"] }

/-- a failing first step (tool `"bad"`). -/
def stepBadX : PlanStep :=
  { id := "s1", type := .tool, description := "fails",
    tool_name := some "bad", outputs := ["x"] }

/-- plan whose first step fails and whose second step would succeed. -/
def planFailThenOk : PlanJSON :=
  { plan_id := "p_fail_then_ok", title := "t", description := "d",
    steps := [stepBadX, stepGoodY] }

/-- plan whose first step succeeds (binding `x`) and whose second step's
tool reports failure. -/
def planOkThenFail : PlanJSON :=
  { plan_id := "p_ok_then_fail", title := "t", description := "d",
    steps := [stepGoodX, stepBadY] }

/-- a plain tool step with a distinct id, used to build a 21-step plan. -/
def mkPlainStep (n : Nat) : PlanStep :=
  { id := "s" ++ toString n, type := .tool, description := "",
    tool_name := some "t" }

/-- a plan with exactly 21 steps (distinct ids, otherwise featureless). -/
def plan21steps : PlanJSON :=
  { plan_id := "p21", title := "", description := "",
    steps := (List.range 21).map (fun n => mkPlainStep (n + 1)) }

/-- a 3-step Tool/Tool/Compute plan with no conditional keywords and no
variable formulas at all. -/
def planLinear3 : PlanJSON :=
  { plan_id := "p3", title := "dc limit", description := "plain plan",
    steps := [
      { id := "a1", type := .tool, description := "query send limit",
        tool_name := some "query_send_limit", outputs := ["P_max_send"] },
      { id := "a2", type := .tool, description := "query recv limit",
        tool_name := some "query_recv_limit", outputs := ["P_max_receive"] },
      { id := "a3", type := .compute, description := "combine",
        formula := some "min(P_max_send, P_max_receive)",
        inputs := [("P_max_send", .str "{P_max_send}"),
                   ("P_max_receive", .str "{P_max_receive}")],
        outputs := ["P_max_net"] }],
    plan_variables := [
      { name := "送端限额", symbol := "P_max_send", unit := "MW" },
      { name := "受端限额", symbol := "P_max_receive", unit := "MW" },
      { name := "网络限额", symbol := "P_max_net", unit := "MW" }] }

/-! ## Claims -/

/-- C6: the Formula Evaluator returns 3000.0 for `min(a,b)` and 3200.0 for
`max(a,b)` under `{a: 3200.0, b: 3000.0}`, and under `{a: 3200.0}` it fails
with an error naming the missing symbol `b` (the source raises
`ValueError("公式中的变量未找到: b")`, the spec's `UnboundSymbolError`). -/
theorem C6_formula_evaluator_examples :
    evaluate_formula "min(a,b)" [("a", Value.num 3200), ("b", Value.num 3000)]
        = .ok 3000 ∧
    evaluate_formula "max(a,b)" [("a", Value.num 3200), ("b", Value.num 3000)]
        = .ok 3200 ∧
    evaluate_formula "min(a,b)" [("a", Value.num 3200)]
        = .error "公式中的变量未找到: b" := by
  refine ⟨by decide, by decide, by decide⟩

/-- C7: contrary to the claim, a numeric literal in a `min(...)` argument
list is not accepted: the evaluator looks every token up in the bindings,
so `min(3, b)` under `{b: 5.0}` raises
`ValueError("公式中的变量未找到: 3")` instead of returning 3.0. -/
theorem C7_literal_argument_rejected :
    evaluate_formula "min(3, b)" [("b", Value.num 5)]
      = .error "公式中的变量未找到: 3" := by
  decide

/-- C3 (counterexample): a concrete plan with exactly 21 steps classifies
as `branch`, not `multi_agent` — the branch rule (`step count > 15`) fires
before the multi-agent rule is ever consulted. -/
theorem C3_counterexample_21_steps_not_multi_agent :
    plan21steps.steps.length = 21 ∧
      analyze plan21steps ≠ ComplexityLevel.multi_agent := by
  refine ⟨by decide, by decide⟩

/-- C3 (amended): every plan with exactly 21 steps classifies as `branch`,
regardless of its other properties. -/
theorem C3_amended_21_steps_branch (plan : PlanJSON)
    (h : plan.steps.length = 21) :
    analyze plan = ComplexityLevel.branch := by
  unfold analyze
  rw [h]
  simp

/-- C3 witness: the amended theorem applied to the concrete 21-step plan. -/
theorem C3_witness :
    plan21steps.steps.length = 21 ∧
      analyze plan21steps = ComplexityLevel.branch :=
  ⟨by decide, C3_amended_21_steps_branch plan21steps (by decide)⟩

/-- C5 (counterexample): an explicit strategy name that is not registered
does not fail — `route_to_executor` silently returns the complexity-based
default (here shown for `multi_agent` and `linear`), exactly as if no
explicit name had been given.  The router has no error outcome at all. -/
theorem C5_counterexample_unknown_name_falls_back :
    route_to_executor ComplexityLevel.multi_agent (some "unknown-strategy")
        = ExecutorChoice.smolagents ∧
    route_to_executor ComplexityLevel.linear (some "unknown-strategy")
        = ExecutorChoice.langgraph ∧
    route_to_executor ComplexityLevel.multi_agent none
        = ExecutorChoice.smolagents ∧
    route_to_executor ComplexityLevel.linear none
        = ExecutorChoice.langgraph := by
  refine ⟨by decide, by decide, by decide, by decide⟩

/-- C5 (amended): for every complexity level, an explicit name that is not
(case-insensitively) `"langgraph"` or `"smolagents"` is silently ignored:
routing behaves exactly as with no explicit name, falling back to the
complexity-based default.  No `UnknownStrategyError` exists. -/
theorem C5_amended_unknown_name_ignored (complexity : ComplexityLevel)
    (name : String)
    (h1 : lowerString name ≠ "langgraph") (h2 : lowerString name ≠ "smolagents") :
    route_to_executor complexity (some name) =
      route_to_executor complexity none := by
  unfold route_to_executor
  by_cases hempty : name = "" <;> simp [hempty, h1, h2]

/-- C5 witness: the amended theorem applied to a concrete unknown name. -/
theorem C5_witness :
    route_to_executor ComplexityLevel.branch (some "unregistered") =
      route_to_executor ComplexityLevel.branch none :=
  C5_amended_unknown_name_ignored ComplexityLevel.branch "unregistered"
    (by decide) (by decide)

/-- C1: contrary to the claim, an execution in which every step succeeds
does NOT reach `"completed"`: the node's last-step check compares `step.id`
against the never-written `last_step_id` key, so the status stays
`"running"` and `execute` returns `success = false` even though every
history record reports success (and the final output was computed). -/
theorem C1_all_steps_succeed_but_success_false :
    ((execute envOK planRunsClean "sc" [("line", Value.str "L")]).step_results.map
        (fun r => r.success) = [true, true, true]) ∧
    (runSteps envOK planRunsClean.steps
        (initGraphState [("line", Value.str "L")])).status = "running" ∧
    (execute envOK planRunsClean "sc" [("line", Value.str "L")]).success = false ∧
    dictGet (execute envOK planRunsClean "sc" [("line", Value.str "L")]).final_outputs
        "P_max_net" = some (Value.num 2800) := by
  refine ⟨by decide, by decide, by decide, by decide⟩

/-- C2 (counterexample): in a two-step plan whose first step's tool reports
failure, the second step still runs — it appends a (successful) record to
`step_history` and binds its output variable — contradicting "no later step
of the Plan is executed". -/
theorem C2_counterexample_later_step_still_runs :
    ((execute envToolFail planFailThenOk "sc" []).step_results.map
        (fun r => (r.step_id, r.success)) = [("s1", false), ("s2", true)]) ∧
    dictGet (execute envToolFail planFailThenOk "sc" []).vars "y"
        = some (Value.num 7) ∧
    (execute envToolFail planFailThenOk "sc" []).success = false := by
  refine ⟨by decide, by decide, by decide⟩

/-- C2 (amended): once the chain reaches `status = "failed"` after some
prefix of the plan, the status stays `"failed"` to the end and `execute`
returns `success = false`; however, the remaining steps are NOT skipped:
every one of them still runs and appends one record to `step_history` (the
graph's edges are unconditional). -/
theorem C2_amended_failed_sticky_but_steps_run (env : ToolEnv)
    (plan : PlanJSON) (scenario : String) (inputs : List (String × Value))
    (pre post : List PlanStep)
    (hsplit : plan.steps = pre ++ post)
    (hvalid : validate_inputs plan inputs = none)
    (hfail : (runSteps env pre (initGraphState inputs)).status = "failed") :
    (execute env plan scenario inputs).success = false ∧
    (runSteps env plan.steps (initGraphState inputs)).status = "failed" ∧
    (runSteps env plan.steps (initGraphState inputs)).step_results.length =
      (runSteps env pre (initGraphState inputs)).step_results.length
        + post.length := by
  have hlast : (runSteps env pre (initGraphState inputs)).last_step_id = none :=
    runSteps_last_step_id env pre (initGraphState inputs)
  have happ : runSteps env plan.steps (initGraphState inputs)
      = runSteps env post (runSteps env pre (initGraphState inputs)) := by
    rw [hsplit, runSteps_append]
  have hs : (runSteps env plan.steps (initGraphState inputs)).status = "failed" := by
    rw [happ]
    exact runSteps_failed_sticky env post _ hlast hfail
  refine ⟨?_, hs, ?_⟩
  · rw [execute_of_valid env plan scenario inputs hvalid]
    show ((runSteps env plan.steps (initGraphState inputs)).status == "completed") = false
    rw [hs]
    decide
  · rw [happ]
    exact runSteps_records_len env post _

/-- C2 witness: the amended theorem applied to the concrete two-step plan
whose first step fails. -/
theorem C2_witness :
    (execute envToolFail planFailThenOk "sc" []).success = false ∧
    (runSteps envToolFail planFailThenOk.steps (initGraphState [])).status
        = "failed" ∧
    (runSteps envToolFail planFailThenOk.steps (initGraphState [])).step_results.length =
      (runSteps envToolFail [stepBadX] (initGraphState [])).step_results.length
        + [stepGoodY].length :=
  C2_amended_failed_sticky_but_steps_run envToolFail planFailThenOk "sc" []
    [stepBadX] [stepGoodY] rfl rfl (by decide)

/-- C4 (counterexample): in a run where the second step's tool reports
`success = false`, the failing step is `"s2"`, yet the returned result's
`failed_step` is `None` — `execute` never passes a `failed_step` to
`create_execution_result` — contradicting "failed_step equals that step's
id". -/
theorem C4_counterexample_failed_step_not_set :
    ((execute envToolFail planOkThenFail "sc" []).step_results.map
        (fun r => (r.step_id, r.success)) = [("s1", true), ("s2", false)]) ∧
    (execute envToolFail planOkThenFail "sc" []).failed_step = none ∧
    (execute envToolFail planOkThenFail "sc" []).failed_step ≠ some "s2" := by
  refine ⟨by decide, by decide, by decide⟩

/-- C4 (amended): when a ToolCall step's external tool reports
`success = false`, the run does end with `success = false` (the chain's
status becomes and stays `"failed"`), an error message is reported, and
every variable bound before the failing step is still present in the
returned result's variables — but `failed_step` is always `None`: this
executor never sets it. -/
theorem C4_amended_tool_failure (env : ToolEnv) (plan : PlanJSON)
    (scenario : String) (inputs : List (String × Value))
    (pre post : List PlanStep) (step : PlanStep) (tn : String)
    (hsplit : plan.steps = pre ++ step :: post)
    (hvalid : validate_inputs plan inputs = none)
    (htype : step.type = StepType.tool)
    (hname : step.tool_name = some tn) (hne : tn ≠ "")
    (hfail : (env tn (resolve_tool_inputs step.inputs
        (runSteps env pre (initGraphState inputs)).vars)).success = false) :
    (execute env plan scenario inputs).success = false ∧
    (execute env plan scenario inputs).failed_step = none ∧
    (execute env plan scenario inputs).error_message.isSome = true ∧
    ∀ k, (dictGet (runSteps env pre (initGraphState inputs)).vars k).isSome →
      (dictGet (execute env plan scenario inputs).vars k).isSome := by
  have hlast : (runSteps env pre (initGraphState inputs)).last_step_id = none :=
    runSteps_last_step_id env pre (initGraphState inputs)
  have hd : dispatch_step env step
      { runSteps env pre (initGraphState inputs) with current_step := step.id }
      = .error ("Tool步骤执行失败: 工具调用失败: " ++
          optMsgStr (env tn (resolve_tool_inputs step.inputs
            (runSteps env pre (initGraphState inputs)).vars)).error_message) :=
    dispatch_step_tool_failure env step _ tn htype hname hne hfail
  obtain ⟨hns, hne', hnv⟩ :=
    step_node_of_dispatch_error env step (runSteps env pre (initGraphState inputs)) _ hd
  have happ : runSteps env plan.steps (initGraphState inputs)
      = runSteps env post
          (step_node env step (runSteps env pre (initGraphState inputs))) := by
    rw [hsplit, runSteps_append]
    rfl
  have hnodelast : (step_node env step
      (runSteps env pre (initGraphState inputs))).last_step_id = none := by
    rw [step_node_last_step_id]
    exact hlast
  have hs : (runSteps env plan.steps (initGraphState inputs)).status = "failed" := by
    rw [happ]
    exact runSteps_failed_sticky env post _ hnodelast hns
  refine ⟨?_, ?_, ?_, ?_⟩
  · rw [execute_of_valid env plan scenario inputs hvalid]
    show ((runSteps env plan.steps (initGraphState inputs)).status == "completed") = false
    rw [hs]
    decide
  · rw [execute_of_valid env plan scenario inputs hvalid]
  · rw [execute_of_valid env plan scenario inputs hvalid]
    show (runSteps env plan.steps (initGraphState inputs)).error_message.isSome = true
    rw [happ]
    refine runSteps_errmsg_isSome env post _ ?_
    rw [hne']
    rfl
  · intro k hk
    rw [execute_of_valid env plan scenario inputs hvalid]
    show (dictGet (runSteps env plan.steps (initGraphState inputs)).vars k).isSome = true
    rw [happ]
    refine runSteps_vars_isSome env post _ k ?_
    rw [hnv]
    exact hk

/-- C4 witness: the amended theorem applied to the concrete plan that binds
`x` and then fails, with the bound-variable conclusion instantiated at
`x`. -/
theorem C4_witness :
    (execute envToolFail planOkThenFail "sc" []).success = false ∧
    (execute envToolFail planOkThenFail "sc" []).failed_step = none ∧
    (execute envToolFail planOkThenFail "sc" []).error_message.isSome = true ∧
    (dictGet (execute envToolFail planOkThenFail "sc" []).vars "x").isSome :=
  ⟨(C4_amended_tool_failure envToolFail planOkThenFail "sc" [] [stepGoodX] []
      stepBadY "bad" rfl rfl rfl rfl (by decide) (by decide)).1,
   (C4_amended_tool_failure envToolFail planOkThenFail "sc" [] [stepGoodX] []
      stepBadY "bad" rfl rfl rfl rfl (by decide) (by decide)).2.1,
   (C4_amended_tool_failure envToolFail planOkThenFail "sc" [] [stepGoodX] []
      stepBadY "bad" rfl rfl rfl rfl (by decide) (by decide)).2.2.1,
   (C4_amended_tool_failure envToolFail planOkThenFail "sc" [] [stepGoodX] []
      stepBadY "bad" rfl rfl rfl rfl (by decide) (by decide)).2.2.2 "x" (by decide)⟩

/-- C8: if the caller's input map omits any key declared in
`plan.plan_inputs`, `execute` fails before any step runs: the result has
`success = false`, an empty `step_history`, and an error message naming a
missing declared key (the first missing one, per
`BaseExecutor.validate_inputs`). -/
theorem C8_missing_input_fails_before_any_step (env : ToolEnv)
    (plan : PlanJSON) (scenario : String) (inputs : List (String × Value))
    (k desc : String)
    (hmem : (k, desc) ∈ plan.plan_inputs)
    (hmiss : dictGet inputs k = none) :
    (execute env plan scenario inputs).success = false ∧
    (execute env plan scenario inputs).step_results = [] ∧
    ∃ k' desc', (k', desc') ∈ plan.plan_inputs ∧ dictGet inputs k' = none ∧
      (execute env plan scenario inputs).error_message =
        some ("缺少必需的输入参数: " ++ k' ++ " (" ++ desc' ++ ")") := by
  have hsome : (plan.plan_inputs.find? (fun kv => !dictHas inputs kv.1)).isSome := by
    rw [List.find?_isSome]
    refine ⟨(k, desc), hmem, ?_⟩
    simp [dictHas, hmiss]
  obtain ⟨kv, hfind⟩ := Option.isSome_iff_exists.mp hsome
  have hmem' : kv ∈ plan.plan_inputs := List.mem_of_find?_eq_some hfind
  have hp : (!dictHas inputs kv.1) = true :=
    List.find?_some (p := fun kv : String × String => !dictHas inputs kv.1) hfind
  have hv : validate_inputs plan inputs =
      some ("缺少必需的输入参数: " ++ kv.1 ++ " (" ++ kv.2 ++ ")") := by
    unfold validate_inputs
    rw [hfind]
    rfl
  rw [execute_of_invalid env plan scenario inputs _ hv]
  refine ⟨rfl, rfl, kv.1, kv.2, ?_, ?_, rfl⟩
  · exact hmem'
  · simpa [dictHas, Option.isSome_iff_exists] using hp

/-- C8 witness: the theorem applied to the repo's sample plan with an empty
input map (the declared input `line` is missing). -/
theorem C8_witness :
    (execute envOK planRunsClean "sc" []).success = false ∧
    (execute envOK planRunsClean "sc" []).step_results = [] ∧
    ∃ k' desc', (k', desc') ∈ planRunsClean.plan_inputs ∧
      dictGet ([] : List (String × Value)) k' = none ∧
      (execute envOK planRunsClean "sc" []).error_message =
        some ("缺少必需的输入参数: " ++ k' ++ " (" ++ desc' ++ ")") :=
  C8_missing_input_fails_before_any_step envOK planRunsClean "sc" []
    "line" "直流线路名称" (by decide) (by decide)

/-- C9: a plan with exactly 3 steps, all of kind ToolCall or Compute, whose
steps exhibit no conditional language (in the analyzer's keyword sense) and
none of whose declared variables has a formula mentioning an aggregate
function name, classifies as `linear`. -/
theorem C9_three_plain_steps_linear (plan : PlanJSON)
    (h1 : plan.steps.length = 3)
    (h2 : ∀ s ∈ plan.steps, s.type = StepType.tool ∨ s.type = StepType.compute)
    (h3 : has_conditional_logic plan.steps = false)
    (h4 : complex_formulas plan.plan_variables = []) :
    analyze plan = ComplexityLevel.linear := by
  have hlvl : variable_complexity_level plan.plan_variables = "moderate" ∨
      variable_complexity_level plan.plan_variables = "simple" := by
    unfold variable_complexity_level
    rw [h4]
    by_cases hf : formula_count plan.plan_variables > 0
    · left; simp [hf]
    · right; simp [hf]
  unfold analyze
  rw [h1, h3]
  rcases hlvl with h | h <;> rw [h] <;> simp

/-- C9 witness: the theorem applied to a concrete Tool/Tool/Compute plan. -/
theorem C9_witness :
    planLinear3.steps.length = 3 ∧
      analyze planLinear3 = ComplexityLevel.linear :=
  ⟨by decide,
   C9_three_plain_steps_linear planLinear3 (by decide) (by decide)
     (by decide) (by decide)⟩

/-- C10: `execute` is total by construction (mirroring the body-wide
`try/except Exception`), and every internal failure surfaces in the result:
a validation failure yields `success = false`, that exact message, and an
empty history; and once validation passes, any reported `error_message` is
the error of some recorded failed step, with `success = false`. -/
theorem C10_failures_are_converted (env : ToolEnv) (plan : PlanJSON)
    (scenario : String) (inputs : List (String × Value)) :
    (∀ msg, validate_inputs plan inputs = some msg →
        (execute env plan scenario inputs).success = false ∧
        (execute env plan scenario inputs).error_message = some msg ∧
        (execute env plan scenario inputs).step_results = []) ∧
    (validate_inputs plan inputs = none →
      ∀ m, (execute env plan scenario inputs).error_message = some m →
        (execute env plan scenario inputs).success = false ∧
        ∃ r ∈ (execute env plan scenario inputs).step_results,
          r.success = false ∧ r.error = some m) := by
  constructor
  · intro msg hv
    rw [execute_of_invalid env plan scenario inputs msg hv]
    exact ⟨rfl, rfl, rfl⟩
  · intro hv m hm
    rw [execute_of_valid env plan scenario inputs hv] at hm ⊢
    constructor
    · have hnc : (runSteps env plan.steps (initGraphState inputs)).status
          ≠ "completed" :=
        runSteps_not_completed env plan.steps (initGraphState inputs) rfl
          (by show ("running" : String) ≠ "completed"; decide)
      show ((runSteps env plan.steps (initGraphState inputs)).status
          == "completed") = false
      exact beq_eq_false_iff_ne.mpr hnc
    · have htr : ErrTraced (runSteps env plan.steps (initGraphState inputs)) :=
        runSteps_errTraced env plan.steps (initGraphState inputs)
          (fun m' hm' => absurd hm' (by simp [initGraphState]))
      exact htr m hm

/-- C10 witness: the validation-failure component at a concrete run (the
sample plan with its declared input missing). -/
theorem C10_witness :
    (execute envOK planRunsClean "sc" []).success = false ∧
    (execute envOK planRunsClean "sc" []).error_message =
      some "缺少必需的输入参数: line (直流线路名称)" ∧
    (execute envOK planRunsClean "sc" []).step_results = [] :=
  (C10_failures_are_converted envOK planRunsClean "sc" []).1
    "缺少必需的输入参数: line (直流线路名称)" (by decide)
